import Mathlib

/-!
Shallow embedding of the MonsoonViz repository (files `dashboard-with-API.py`
and `dashboard.py`).  Dataframes are lists of row structures; numeric
columns are rationals.  Library transcendentals (`np.sin`, `np.cos` at the
fixed linspace grid) are abstracted as function parameters, since no claim
depends on their values.  External effects (HTTP fetches, CSV reads,
shapefile reads) are inputs: a fetch is a function from city to an optional
weather record, a read is an `Except` of the parsed rows.  Python
exceptions that the code can raise are the `PyError` type.
-/

/-- The fixed 7-city map of `dashboard-with-API.py` (`STATE_NAMES`). -/
def STATE_NAMES : List (String × String) :=
  [("Mumbai", "Maharashtra"), ("Delhi", "Delhi"), ("Bangalore", "Karnataka"),
   ("Chennai", "Tamil Nadu"), ("Jaipur", "Rajasthan"), ("Lucknow", "Uttar Pradesh"),
   ("Kolkata", "West Bengal")]

/-- `list(STATE_NAMES.values())`: the 7 fixed states, in insertion order. -/
def states_list : List String := STATE_NAMES.map Prod.snd

/-- The 12 calendar months, as both generators and the rainfall renderer list them. -/
def months_list : List String :=
  ["Jan", "Feb", "Mar", "Apr", "May", "Jun", "Jul", "Aug", "Sep", "Oct", "Nov", "Dec"]

/-- `np.repeat(xs, n)`: each element repeated `n` times, consecutively. -/
def npRepeat (xs : List α) (n : Nat) : List α :=
  xs.flatMap (fun x => List.replicate n x)

/-- `np.tile(xs, n)` / Python `xs * n`: the whole list repeated `n` times. -/
def npTile (xs : List α) (n : Nat) : List α :=
  (List.replicate n xs).flatten

/-- A row of a temperature dataframe.  API rows carry both coordinates,
synthetic rows only a latitude, CSV rows whatever the file holds. -/
structure TempRow where
  state : String
  month : String
  avg_temp : ℚ
  lat : Option ℚ := none
  lon : Option ℚ := none
deriving DecidableEq

/-- A row of a rainfall dataframe. -/
structure RainRow where
  state : String
  month : String
  rainfall : ℚ
deriving DecidableEq

/-- A row of a wind dataframe (API rows; the wind CSV of `dashboard.py`
has the same `U`/`V`/coordinate columns, its `State` defaulted). -/
structure WindRow where
  state : String := ""
  u : ℚ
  v : ℚ
  lat : ℚ
  lon : ℚ
deriving DecidableEq

/-- The fields `_fetch_api_data` extracts from a successful response.
A failed fetch (any exception inside `_fetch_api_data`) is `none`. -/
structure Weather where
  temp_c : ℚ
  precip_mm : ℚ
  wind_kph : ℚ
  wind_degree : ℚ
  lat : ℚ
  lon : ℚ
deriving DecidableEq

/-- Exceptions a modelled Python path can raise. -/
inductive PyError
  /-- `ValueError` from `pd.DataFrame` on columns of unequal length. -/
  | valueError
  /-- a CSV read error other than `FileNotFoundError`, left uncaught. -/
  | csvReadError
deriving DecidableEq

/-- Failure modes of a `pd.read_csv` / `gpd.read_file` call. -/
inductive ReadError
  | fileNotFound
  | otherError
deriving DecidableEq

/-- The API-mode loop body of `load_weather_data`, generalized over the
city/state pairs: for each pair in order, fetch; on success append
`mk state weather`, on failure append nothing. -/
def build_rows (fetch : String → Option Weather) (mk : String → Weather → ρ) :
    List (String × String) → List ρ
  | [] => []
  | cs :: rest =>
      match fetch cs.1 with
      | some w => mk cs.2 w :: build_rows fetch mk rest
      | none => build_rows fetch mk rest

/-- API-mode temperature rows of `load_weather_data(use_api=True)`. -/
def api_temp_rows (fetch : String → Option Weather) (month : String) : List TempRow :=
  build_rows fetch
    (fun st w => { state := st, month := month, avg_temp := w.temp_c,
                   lat := some w.lat, lon := some w.lon }) STATE_NAMES

/-- API-mode rainfall rows of `load_weather_data(use_api=True)`. -/
def api_rain_rows (fetch : String → Option Weather) (month : String) : List RainRow :=
  build_rows fetch
    (fun st w => { state := st, month := month, rainfall := w.precip_mm }) STATE_NAMES

/-- API-mode wind rows of `load_weather_data(use_api=True)`; `cosr`/`sinr`
stand for `np.cos(np.radians(.))` and `np.sin(np.radians(.))`. -/
def api_wind_rows (fetch : String → Option Weather) (cosr sinr : ℚ → ℚ) : List WindRow :=
  build_rows fetch
    (fun st w => { state := st, u := w.wind_kph * cosr w.wind_degree,
                   v := w.wind_kph * sinr w.wind_degree, lat := w.lat, lon := w.lon })
    STATE_NAMES

/-- `pd.DataFrame` on a 4-column dict: zip the columns into rows, but raise
`ValueError` unless all columns have the same length. -/
def zip4 : List α → List β → List γ → List δ → List (α × β × γ × δ)
  | a :: as, b :: bs, c :: cs, d :: ds => (a, b, c, d) :: zip4 as bs cs ds
  | _, _, _, _ => []

/-- 4-column dataframe constructor with the pandas equal-length check. -/
def dfOfCols4 (mk : α → β → γ → δ → ρ)
    (c1 : List α) (c2 : List β) (c3 : List γ) (c4 : List δ) : Except PyError (List ρ) :=
  if c1.length = c2.length ∧ c1.length = c3.length ∧ c1.length = c4.length then
    .ok ((zip4 c1 c2 c3 c4).map (fun p => mk p.1 p.2.1 p.2.2.1 p.2.2.2))
  else
    .error .valueError

/-- 3-column dataframe constructor with the pandas equal-length check. -/
def dfOfCols3 (mk : α → β → γ → ρ)
    (c1 : List α) (c2 : List β) (c3 : List γ) : Except PyError (List ρ) :=
  if c1.length = c2.length ∧ c1.length = c3.length then
    .ok (((c1.zip (c2.zip c3))).map (fun p => mk p.1 p.2.1 p.2.2))
  else
    .error .valueError

/-- `_generate_sample_data` of `dashboard-with-API.py`.  `sin7 k` stands for
`np.sin(np.linspace(0, 2*np.pi, 12)[k] * 7)` (the hardcoded seasonal curve);
the value columns follow the source expressions
`25 + 10*np.sin(np.linspace(0,2*np.pi,12)*len(states))` and
`50*(1 + 0.5*np.sin(np.linspace(0,2*np.pi,12)*len(states)))`, which have
length 12, while the State/Month/Latitude columns have length 84. -/
def generate_sample_data (sin7 : Fin 12 → ℚ) :
    Except PyError (List TempRow × List RainRow × Option (List WindRow)) := do
  let stateCol := npRepeat states_list 12
  let monthCol := npTile months_list 7
  let tempCol := (List.finRange 12).map (fun k => 25 + 10 * sin7 k)
  let latCol : List ℚ :=
    npRepeat [19.7, 28.7, 15.3, 13.1, 27.0, 26.8, 22.9] 12
  let rainCol := (List.finRange 12).map (fun k => 50 * (1 + 0.5 * sin7 k))
  let tdf ← dfOfCols4
    (fun s m t l => ({ state := s, month := m, avg_temp := t, lat := some l } : TempRow))
    stateCol monthCol tempCol latCol
  let rdf ← dfOfCols3
    (fun s m r => ({ state := s, month := m, rainfall := r } : RainRow))
    stateCol monthCol rainCol
  return (tdf, rdf, none)

/-- `load_weather_data` of `dashboard-with-API.py`.  Inputs: the mode flag,
the per-city fetch outcome, the current month string, the trig functions for
the wind decomposition, the outcome of reading the two cached CSVs, and the
seasonal sine table used by the synthetic generator.  Only
`FileNotFoundError` is caught on the CSV read. -/
def load_weather_data (use_api : Bool) (fetch : String → Option Weather)
    (month : String) (cosr sinr : ℚ → ℚ)
    (csvRead : Except ReadError (List TempRow × List RainRow))
    (sin7 : Fin 12 → ℚ) :
    Except PyError (List TempRow × List RainRow × Option (List WindRow)) :=
  if use_api then
    .ok (api_temp_rows fetch month, api_rain_rows fetch month,
         some (api_wind_rows fetch cosr sinr))
  else
    match csvRead with
    | .ok (t, r) => .ok (t, r, none)
    | .error .fileNotFound => generate_sample_data sin7
    | .error .otherError => .error .csvReadError

/-- Lexicographic comparison of char lists by code point (the order pandas
uses when sorting a string index). -/
def lexLe : List Char → List Char → Bool
  | [], _ => true
  | _ :: _, [] => false
  | a :: as, b :: bs => if a < b then true else if b < a then false else lexLe as bs

/-- Lexicographic string order. -/
def strRle (a b : String) : Prop := lexLe a.data b.data = true

instance : DecidableRel strRle := fun a b => by unfold strRle; infer_instance

/-- The sorted unique index a pandas `pivot`/`groupby` produces. -/
def uniqueSorted (l : List String) : List String :=
  List.insertionSort strRle l.dedup

/-- The canonical month order `plot_rainfall_patterns` reindexes to. -/
def ordered_months : List String :=
  ["Jan", "Feb", "Mar", "Apr", "May", "Jun", "Jul", "Aug", "Sep", "Oct", "Nov", "Dec"]

/-- One cell of the pivoted-and-reindexed rainfall table: the value of the
unique row with this (state, month) key (`none` is NaN); a month column
absent from the data is created by `reindex(..., fill_value=0)` as 0.
Defined on key-unique frames (pandas `pivot` raises on duplicate keys). -/
def rain_pivot_cell (rows : List RainRow) (s m : String) : Option ℚ :=
  if rows.any (fun r => r.month = m) then
    ((rows.filter (fun r => r.state = s ∧ r.month = m)).head?).map (fun r => r.rainfall)
  else some 0

/-- The row index of the pivoted rainfall table: unique states, sorted. -/
def rain_pivot_index (rows : List RainRow) : List String :=
  uniqueSorted (rows.map (fun r => r.state))

/-- The pivoted rainfall table handed to the heatmap: one line per state of
the sorted index, columns in canonical Jan..Dec order. -/
def rain_heatmap_grid (rows : List RainRow) : List (String × List (Option ℚ)) :=
  (rain_pivot_index rows).map
    (fun s => (s, ordered_months.map (fun m => rain_pivot_cell rows s m)))

/-- `xs.mean()` of a nonempty group. -/
def list_mean (xs : List ℚ) : ℚ := xs.sum / xs.length

/-- `temp_df.groupby('State')['Avg_Temp'].mean()`: one (state, mean) pair
per distinct state, sorted index. -/
def groupby_mean (rows : List TempRow) : List (String × ℚ) :=
  (uniqueSorted (rows.map (fun r => r.state))).map
    (fun s => (s, list_mean ((rows.filter (fun r => r.state = s)).map (fun r => r.avg_temp))))

/-- A row of the geometry table: state name, coordinates, point geometry
(`points_from_xy` puts x := longitude, y := latitude). -/
structure GeoRow where
  state : String
  lat : ℚ
  lon : ℚ
  geometry : ℚ × ℚ
deriving DecidableEq

/-- The hardcoded fallback latitudes of `dashboard-with-API.py`. -/
def fallback_lats : List ℚ :=
  [19.7515, 28.7041, 15.3173, 13.0827, 27.0238, 26.8467, 22.9868]

/-- The hardcoded fallback longitudes of `dashboard-with-API.py`. -/
def fallback_lons : List ℚ :=
  [75.7139, 77.1025, 75.7139, 80.2707, 74.2179, 80.9462, 87.8550]

/-- The fallback `GeoDataFrame`: the three parallel columns zipped, with a
point geometry per row. -/
def fallback_states : List GeoRow :=
  ((states_list.zip (fallback_lats.zip fallback_lons))).map
    (fun p => { state := p.1, lat := p.2.1, lon := p.2.2, geometry := (p.2.2, p.2.1) })

/-- `_load_india_shapefile`: any failure of `gpd.read_file` falls back to
the hardcoded coordinate table. -/
def load_india_shapefile (shp : Except ReadError (List GeoRow)) : List GeoRow :=
  match shp with
  | .ok g => g
  | .error _ => fallback_states

/-- `india_states.merge(agg, on='State', how='left')`: each geometry row,
in order, paired with the value of the aggregate entry whose key equals its
state exactly (`none` is NaN). -/
def merge_left (geo : List GeoRow) (agg : List (String × ℚ)) : List (GeoRow × Option ℚ) :=
  geo.map (fun g => (g, ((agg.filter (fun p => p.1 = g.state)).head?).map Prod.snd))

/-- The merged table `plot_temperature_heatmap` renders. -/
def temperature_merged (geo : List GeoRow) (temp : List TempRow) : List (GeoRow × Option ℚ) :=
  merge_left geo (groupby_mean temp)

/-- `plot_wind_patterns` of `dashboard-with-API.py`, as the list of files it
writes: it returns early, writing nothing, when the dataframe is `None` or
empty. -/
def plot_wind_patterns (wind_df : Option (List WindRow)) : List String :=
  match wind_df with
  | none => []
  | some l => if l.isEmpty then [] else ["assets/wind_patterns.png"]

/-- `plot_wind_patterns` of `dashboard.py`: it reads the wind CSV itself and
returns early only on `FileNotFoundError`; any row list that was read, even
an empty one, is plotted and the file written. -/
def py_plot_wind_patterns (csvRead : Except ReadError (List WindRow)) :
    Except PyError (List String) :=
  match csvRead with
  | .ok _ => .ok ["assets/wind_patterns.png"]
  | .error .fileNotFound => .ok []
  | .error .otherError => .error .csvReadError

/-- `np.sin(np.linspace(0, 2*np.pi, 12))` of `dashboard.py`, abstracted as
the table `sinL`. -/
def sin_linspace_col (sinL : Fin 12 → ℚ) : List ℚ :=
  (List.finRange 12).map (fun k => sinL k)

/-- The final `Avg_Temp` column of `dashboard.py`'s synthetic branch:
normal noise of size `len(states)*12` plus the seasonal term
`10 * np.tile(np.sin(np.linspace(0, 2*np.pi, 12)), len(states))` that the
code adds to the column after construction. -/
def py_temp_col (sinL : Fin 12 → ℚ) (noiseT : ℕ → ℚ) : List ℚ :=
  List.zipWith (· + ·) ((List.range (7 * 12)).map noiseT)
    ((npTile (sin_linspace_col sinL) 7).map (fun x => 10 * x))

/-- The final `Rainfall` column of `dashboard.py`'s synthetic branch: gamma
noise scaled elementwise by `1 + 0.5 * np.tile(np.sin(...), len(states))`. -/
def py_rain_col (sinL : Fin 12 → ℚ) (noiseR : ℕ → ℚ) : List ℚ :=
  List.zipWith (· * ·) ((List.range (7 * 12)).map noiseR)
    ((npTile (sin_linspace_col sinL) 7).map (fun x => 1 + 0.5 * x))

/-- The synthetic tables of `dashboard.py`'s `load_weather_data`; all
columns have length 84, so the pandas length check passes. -/
def py_sample_tables (sinL : Fin 12 → ℚ) (noiseT noiseR : ℕ → ℚ) :
    Except PyError (List TempRow × List RainRow) := do
  let stateCol := npRepeat states_list 12
  let monthCol := npTile months_list 7
  let latCol : List ℚ := npRepeat [19.7, 28.7, 15.3, 11.1, 27.0, 26.8, 22.9] 12
  let tdf ← dfOfCols4
    (fun s m t l => ({ state := s, month := m, avg_temp := t, lat := some l } : TempRow))
    stateCol monthCol (py_temp_col sinL noiseT) latCol
  let rdf ← dfOfCols3
    (fun s m r => ({ state := s, month := m, rainfall := r } : RainRow))
    stateCol monthCol (py_rain_col sinL noiseR)
  return (tdf, rdf)

/-- `load_weather_data` of `dashboard.py`: CSV passthrough, synthetic
generation on `FileNotFoundError`, any other read error uncaught. -/
def py_load_weather_data (csvRead : Except ReadError (List TempRow × List RainRow))
    (sinL : Fin 12 → ℚ) (noiseT noiseR : ℕ → ℚ) :
    Except PyError (List TempRow × List RainRow) :=
  match csvRead with
  | .ok tr => .ok tr
  | .error .fileNotFound => py_sample_tables sinL noiseT noiseR
  | .error .otherError => .error .csvReadError

/-- The (state, month) key column both synthetic generators lay out:
`np.repeat(states, 12)` zipped with `months * len(states)`. -/
def keys84 : List (String × String) :=
  (npRepeat states_list 12).zip (npTile months_list 7)

/-! ### Lemmas about the API-mode row loop -/

/-- Mapping a key that extracts the state from each produced row turns any
of the three API row builds into the bare list of successfully fetched
states. -/
theorem build_rows_map_key (fetch : String → Option Weather) (mk : String → Weather → ρ)
    (key : ρ → String) (hkey : ∀ s w, key (mk s w) = s) :
    ∀ pairs, (build_rows fetch mk pairs).map key = build_rows fetch (fun s _ => s) pairs := by
  intro pairs
  induction pairs with
  | nil => rfl
  | cons cs rest ih =>
      cases h : fetch cs.1 <;> simp [build_rows, h, ih, hkey]

/-- A state appears among the built rows exactly when some city mapped to it
was fetched successfully. -/
theorem mem_build_states (fetch : String → Option Weather) (st : String) :
    ∀ pairs : List (String × String),
      st ∈ build_rows fetch (fun s _ => s) pairs ↔
        ∃ c w, (c, st) ∈ pairs ∧ fetch c = some w := by
  intro pairs
  induction pairs with
  | nil => simp [build_rows]
  | cons cs rest ih =>
      obtain ⟨city, stt⟩ := cs
      cases h : fetch city with
      | none =>
          simp only [build_rows, h, ih, List.mem_cons, Prod.mk.injEq]
          constructor
          · rintro ⟨c, w, hc, hw⟩
            exact ⟨c, w, Or.inr hc, hw⟩
          · rintro ⟨c, w, ⟨rfl, rfl⟩ | hc, hw⟩
            · exact absurd (h.symm.trans hw) (by simp)
            · exact ⟨c, w, hc, hw⟩
      | some w0 =>
          simp only [build_rows, h, List.mem_cons, ih, Prod.mk.injEq]
          constructor
          · rintro (rfl | ⟨c, w, hc, hw⟩)
            · exact ⟨city, w0, Or.inl ⟨rfl, rfl⟩, h⟩
            · exact ⟨c, w, Or.inr hc, hw⟩
          · rintro ⟨c, w, ⟨rfl, rfl⟩ | hc, hw⟩
            · exact Or.inl rfl
            · exact Or.inr ⟨c, w, hc, hw⟩

/-- If every fetch fails, the loop builds nothing. -/
theorem build_rows_eq_nil (fetch : String → Option Weather) (mk : String → Weather → ρ) :
    ∀ pairs, (∀ p ∈ pairs, fetch p.1 = none) → build_rows fetch mk pairs = [] := by
  intro pairs
  induction pairs with
  | nil => intro _; rfl
  | cons cs rest ih =>
      intro h
      have hcs := h cs (List.mem_cons_self cs rest)
      simp only [build_rows, hcs]
      exact ih (fun p hp => h p (List.mem_cons_of_mem cs hp))

/-- In the fixed city map, no two cities share a state. -/
theorem state_names_key_inj :
    ∀ p ∈ STATE_NAMES, ∀ q ∈ STATE_NAMES, p.2 = q.2 → p.1 = q.1 := by decide

/-- The state column of the API temperature table. -/
theorem api_temp_states_eq (fetch : String → Option Weather) (month : String) :
    (api_temp_rows fetch month).map TempRow.state =
      build_rows fetch (fun s _ => s) STATE_NAMES := by
  unfold api_temp_rows
  exact build_rows_map_key fetch _ TempRow.state (fun s w => rfl) STATE_NAMES

/-- The state column of the API rainfall table. -/
theorem api_rain_states_eq (fetch : String → Option Weather) (month : String) :
    (api_rain_rows fetch month).map RainRow.state =
      build_rows fetch (fun s _ => s) STATE_NAMES := by
  unfold api_rain_rows
  exact build_rows_map_key fetch _ RainRow.state (fun s w => rfl) STATE_NAMES

/-- The state column of the API wind table. -/
theorem api_wind_states_eq (fetch : String → Option Weather) (cosr sinr : ℚ → ℚ) :
    (api_wind_rows fetch cosr sinr).map WindRow.state =
      build_rows fetch (fun s _ => s) STATE_NAMES := by
  unfold api_wind_rows
  exact build_rows_map_key fetch _ WindRow.state (fun s w => rfl) STATE_NAMES

/-! ### Claims about the data-source selector -/

/-- Claim C1 (amended): `load_weather_data` consults only the source its
boolean selects.  In API mode the result is built from the per-city fetches
alone — the CSV-read outcome is never consulted, so there is no fallback
past the API; in non-API mode a readable file is passed through (wind
`None`) and a missing file falls through to the synthetic generator. -/
theorem c1_source_order_amended (fetch : String → Option Weather) (month : String)
    (cosr sinr : ℚ → ℚ) (r1 r2 : Except ReadError (List TempRow × List RainRow))
    (g : Fin 12 → ℚ) :
    (load_weather_data true fetch month cosr sinr r1 g =
       load_weather_data true fetch month cosr sinr r2 g)
    ∧ (load_weather_data true fetch month cosr sinr r1 g =
       .ok (api_temp_rows fetch month, api_rain_rows fetch month,
            some (api_wind_rows fetch cosr sinr)))
    ∧ (∀ t r, load_weather_data false fetch month cosr sinr (.ok (t, r)) g =
        .ok (t, r, none))
    ∧ (load_weather_data false fetch month cosr sinr (.error .fileNotFound) g =
       generate_sample_data g) := by
  exact ⟨rfl, rfl, fun t r => rfl, rfl⟩

/-- Claim C1, counterexample: with every API fetch failing and a readable,
nonempty cached file available, API mode returns three empty tables rather
than trying the file source next. -/
theorem c1_counterexample :
    load_weather_data true (fun _ => none) "Jan" (fun _ => 0) (fun _ => 0)
        (.ok ([{ state := "Maharashtra", month := "Jan", avg_temp := 20 }],
              [{ state := "Maharashtra", month := "Jan", rainfall := 5 }])) (fun _ => 0) =
      .ok ([], [], some [])
    ∧ load_weather_data true (fun _ => none) "Jan" (fun _ => 0) (fun _ => 0)
        (.ok ([{ state := "Maharashtra", month := "Jan", avg_temp := 20 }],
              [{ state := "Maharashtra", month := "Jan", rainfall := 5 }])) (fun _ => 0) ≠
      .ok ([{ state := "Maharashtra", month := "Jan", avg_temp := 20 }],
           [{ state := "Maharashtra", month := "Jan", rainfall := 5 }], none) := by
  constructor
  · rfl
  · intro h
    simp [load_weather_data, api_temp_rows, build_rows, STATE_NAMES] at h

/-- Claim C2: if the fetch for a city of the fixed map fails, that city's
state is absent from all three tables of `load_weather_data(use_api=True)`,
and the call returns normally (no exception escapes). -/
theorem c2_failed_city_absent (fetch : String → Option Weather) (month : String)
    (cosr sinr : ℚ → ℚ) (csvRead : Except ReadError (List TempRow × List RainRow))
    (g : Fin 12 → ℚ) (city st : String)
    (hmem : (city, st) ∈ STATE_NAMES) (hfail : fetch city = none) :
    load_weather_data true fetch month cosr sinr csvRead g =
      .ok (api_temp_rows fetch month, api_rain_rows fetch month,
           some (api_wind_rows fetch cosr sinr))
    ∧ st ∉ (api_temp_rows fetch month).map TempRow.state
    ∧ st ∉ (api_rain_rows fetch month).map RainRow.state
    ∧ st ∉ (api_wind_rows fetch cosr sinr).map WindRow.state := by
  have habs : st ∉ build_rows fetch (fun s _ => s) STATE_NAMES := by
    intro hst
    obtain ⟨c, w, hc, hw⟩ := (mem_build_states fetch st STATE_NAMES).mp hst
    have : c = city := state_names_key_inj (c, st) hc (city, st) hmem rfl
    rw [this, hfail] at hw
    exact absurd hw (by simp)
  refine ⟨rfl, ?_, ?_, ?_⟩
  · rw [api_temp_states_eq]; exact habs
  · rw [api_rain_states_eq]; exact habs
  · rw [api_wind_states_eq]; exact habs

/-- Witness for C2 at a concrete input: the Mumbai fetch fails, so
Maharashtra is absent from all three tables. -/
theorem c2_failed_city_absent_witness :
    load_weather_data true (fun _ => none) "Jan" (fun _ => 0) (fun _ => 0)
        (.ok ([], [])) (fun _ => 0) =
      .ok (api_temp_rows (fun _ => none) "Jan", api_rain_rows (fun _ => none) "Jan",
           some (api_wind_rows (fun _ => none) (fun _ => 0) (fun _ => 0)))
    ∧ "Maharashtra" ∉ (api_temp_rows (fun _ => none) "Jan").map TempRow.state
    ∧ "Maharashtra" ∉ (api_rain_rows (fun _ => none) "Jan").map RainRow.state
    ∧ "Maharashtra" ∉
        (api_wind_rows (fun _ => none) (fun _ => 0) (fun _ => 0)).map WindRow.state :=
  c2_failed_city_absent (fun _ => none) "Jan" (fun _ => 0) (fun _ => 0)
    (.ok ([], [])) (fun _ => 0) "Mumbai" "Maharashtra" (by decide) rfl

/-- Claim C4 (amended): in non-API mode only a missing file
(`FileNotFoundError`) falls through to the synthetic generator; any other
failure of the cached-CSV read propagates out of `load_weather_data`, in
both variants of the program. -/
theorem c4_csv_fallthrough_amended (fetch : String → Option Weather) (month : String)
    (cosr sinr : ℚ → ℚ) (g sinL : Fin 12 → ℚ) (noiseT noiseR : ℕ → ℚ) :
    (load_weather_data false fetch month cosr sinr (.error .fileNotFound) g =
       generate_sample_data g)
    ∧ (load_weather_data false fetch month cosr sinr (.error .otherError) g =
       .error .csvReadError)
    ∧ (py_load_weather_data (.error .fileNotFound) sinL noiseT noiseR =
       py_sample_tables sinL noiseT noiseR)
    ∧ (py_load_weather_data (.error .otherError) sinL noiseT noiseR =
       .error .csvReadError) :=
  ⟨rfl, rfl, rfl, rfl⟩

/-- Claim C4, counterexample: a cached-CSV read failure that is not a
missing file does not fall through to the synthetic generator — the
exception propagates out of `load_weather_data`. -/
theorem c4_counterexample :
    load_weather_data false (fun _ => none) "Jan" (fun _ => 0) (fun _ => 0)
        (.error .otherError) (fun _ => 0) = .error .csvReadError := rfl

/-- Claim C6 (amended): the API variant's `plot_wind_patterns` writes
nothing when the dataframe is `None` or empty; the `dashboard.py` variant
skips only on a missing wind CSV — a readable but empty CSV is still
plotted and the output file written. -/
theorem c6_wind_skip_amended :
    plot_wind_patterns none = []
    ∧ (∀ l : List WindRow,
        plot_wind_patterns (some l) =
          if l.isEmpty then [] else ["assets/wind_patterns.png"])
    ∧ py_plot_wind_patterns (.error .fileNotFound) = .ok [] :=
  ⟨rfl, fun _ => rfl, rfl⟩

/-- Claim C6, counterexample: in `dashboard.py`, an empty (but readable)
wind dataframe does not short-circuit — the wind image is written. -/
theorem c6_counterexample :
    py_plot_wind_patterns (.ok []) = .ok ["assets/wind_patterns.png"]
    ∧ py_plot_wind_patterns (.ok []) ≠ .ok [] := by
  refine ⟨rfl, fun h => ?_⟩
  rw [py_plot_wind_patterns] at h
  injection h with h2
  exact absurd h2 (by decide)

/-- Claim C10: in API mode the three tables always list exactly the same
states, in the same order; and if every fetch fails the result is three
empty tables — no fallback to the file or synthetic source occurs. -/
theorem c10_same_states (fetch : String → Option Weather) (month : String)
    (cosr sinr : ℚ → ℚ) (csvRead : Except ReadError (List TempRow × List RainRow))
    (g : Fin 12 → ℚ) :
    ((api_temp_rows fetch month).map TempRow.state =
       (api_rain_rows fetch month).map RainRow.state
     ∧ (api_temp_rows fetch month).map TempRow.state =
       (api_wind_rows fetch cosr sinr).map WindRow.state)
    ∧ ((∀ p ∈ STATE_NAMES, fetch p.1 = none) →
        load_weather_data true fetch month cosr sinr csvRead g =
          .ok ([], [], some [])) := by
  constructor
  · constructor
    · rw [api_temp_states_eq, api_rain_states_eq]
    · rw [api_temp_states_eq, api_wind_states_eq]
  · intro hall
    have ht := build_rows_eq_nil fetch
      (fun st w => ({ state := st, month := month, avg_temp := w.temp_c,
                      lat := some w.lat, lon := some w.lon } : TempRow)) STATE_NAMES hall
    have hr := build_rows_eq_nil fetch
      (fun st w => ({ state := st, month := month, rainfall := w.precip_mm } : RainRow))
      STATE_NAMES hall
    have hw := build_rows_eq_nil fetch
      (fun st w => ({ state := st, u := w.wind_kph * cosr w.wind_degree,
                      v := w.wind_kph * sinr w.wind_degree,
                      lat := w.lat, lon := w.lon } : WindRow)) STATE_NAMES hall
    simp only [load_weather_data, api_temp_rows, api_rain_rows, api_wind_rows,
      if_pos, ht, hr, hw]

/-- Witness for C10: with every fetch failing, the loader returns three
empty tables even though a readable cached file was supplied. -/
theorem c10_same_states_witness :
    ((api_temp_rows (fun _ => none) "Jan").map TempRow.state =
       (api_rain_rows (fun _ => none) "Jan").map RainRow.state
     ∧ (api_temp_rows (fun _ => none) "Jan").map TempRow.state =
       (api_wind_rows (fun _ => none) (fun _ => 0) (fun _ => 0)).map WindRow.state)
    ∧ load_weather_data true (fun _ => none) "Jan" (fun _ => 0) (fun _ => 0)
          (.ok ([{ state := "Maharashtra", month := "Jan", avg_temp := 20 }], []))
          (fun _ => 0) =
        .ok ([], [], some []) :=
  ⟨(c10_same_states (fun _ => none) "Jan" (fun _ => 0) (fun _ => 0)
      (.ok ([{ state := "Maharashtra", month := "Jan", avg_temp := 20 }], []))
      (fun _ => 0)).1,
   (c10_same_states (fun _ => none) "Jan" (fun _ => 0) (fun _ => 0)
      (.ok ([{ state := "Maharashtra", month := "Jan", avg_temp := 20 }], []))
      (fun _ => 0)).2 (by decide)⟩

/-! ### Shape lemmas for the dataframe constructors -/

/-- Unfolding one tile. -/
theorem npTile_succ (xs : List α) (n : Nat) : npTile xs (n + 1) = xs ++ npTile xs n := by
  simp [npTile, List.replicate_succ]

/-- `np.tile` multiplies the length. -/
theorem npTile_length (xs : List α) (n : Nat) : (npTile xs n).length = n * xs.length := by
  induction n with
  | zero => simp [npTile]
  | succ k ih => rw [npTile_succ, List.length_append, ih]; ring

/-- `zip4` of equal-length columns has that common length. -/
theorem zip4_length :
    ∀ (as : List α) (bs : List β) (cs : List γ) (ds : List δ),
      bs.length = as.length → cs.length = as.length → ds.length = as.length →
      (zip4 as bs cs ds).length = as.length := by
  intro as
  induction as with
  | nil =>
      intro bs cs ds _ _ _
      cases bs <;> cases cs <;> cases ds <;> rfl
  | cons a as ih =>
      intro bs cs ds hb hc hd
      cases bs with
      | nil => exact absurd hb (by simp)
      | cons b bs =>
          cases cs with
          | nil => exact absurd hc (by simp)
          | cons c cs =>
              cases ds with
              | nil => exact absurd hd (by simp)
              | cons d ds =>
                  simp only [zip4, List.length_cons] at *
                  rw [ih bs cs ds (by omega) (by omega) (by omega)]

/-- Projecting the first two components out of a `zip4` of equal-length
columns recovers the zip of the first two columns. -/
theorem zip4_map_pair (f : α × β × γ × δ → α × β)
    (hf : ∀ a b c d, f (a, b, c, d) = (a, b)) :
    ∀ (as : List α) (bs : List β) (cs : List γ) (ds : List δ),
      bs.length = as.length → cs.length = as.length → ds.length = as.length →
      (zip4 as bs cs ds).map f = as.zip bs := by
  intro as
  induction as with
  | nil =>
      intro bs cs ds hb _ _
      cases bs <;> cases cs <;> cases ds <;> simp_all [zip4]
  | cons a as ih =>
      intro bs cs ds hb hc hd
      cases bs with
      | nil => exact absurd hb (by simp)
      | cons b bs =>
          cases cs with
          | nil => exact absurd hc (by simp)
          | cons c cs =>
              cases ds with
              | nil => exact absurd hd (by simp)
              | cons d ds =>
                  simp only [zip4, List.map_cons, List.zip_cons_cons, hf]
                  simp only [List.length_cons] at hb hc hd
                  rw [ih bs cs ds (by omega) (by omega) (by omega)]

/-- The analogue for a 3-column frame built with nested `zip`. -/
theorem zip3_map_pair (f : α × β × γ → α × β)
    (hf : ∀ a b c, f (a, b, c) = (a, b)) :
    ∀ (as : List α) (bs : List β) (cs : List γ),
      bs.length = as.length → cs.length = as.length →
      (as.zip (bs.zip cs)).map f = as.zip bs := by
  intro as
  induction as with
  | nil => intro bs cs _ _; simp
  | cons a as ih =>
      intro bs cs hb hc
      cases bs with
      | nil => exact absurd hb (by simp)
      | cons b bs =>
          cases cs with
          | nil => exact absurd hc (by simp)
          | cons c cs =>
              simp only [List.zip_cons_cons, List.map_cons, hf]
              simp only [List.length_cons] at hb hc
              rw [ih bs cs (by omega) (by omega)]

/-- The `Avg_Temp` column of `_generate_sample_data` has 12 entries while
the `State` column has 84, so the temperature `pd.DataFrame` call raises
`ValueError`: the generator of `dashboard-with-API.py` always fails. -/
theorem generate_sample_data_err (sin7 : Fin 12 → ℚ) :
    generate_sample_data sin7 = .error .valueError := by
  have hcond : ¬ ((npRepeat states_list 12).length = (npTile months_list 7).length
      ∧ (npRepeat states_list 12).length =
          ((List.finRange 12).map (fun k => (25 : ℚ) + 10 * sin7 k)).length
      ∧ (npRepeat states_list 12).length =
          (npRepeat ([19.7, 28.7, 15.3, 13.1, 27.0, 26.8, 22.9] : List ℚ) 12).length) := by
    intro h
    have h1 : (npRepeat states_list 12).length = 84 := by decide
    have h2 : ((List.finRange 12).map (fun k => (25 : ℚ) + 10 * sin7 k)).length = 12 := by
      simp
    rw [h1, h2] at h
    omega
  simp only [generate_sample_data, dfOfCols4, if_neg hcond]
  rfl

/-- The synthetic branch of `dashboard.py` succeeds (all columns have
length 84) and lays its (state, month) keys out as `keys84`. -/
theorem py_sample_tables_spec (sinL : Fin 12 → ℚ) (nT nR : ℕ → ℚ) :
    ∃ t r, py_sample_tables sinL nT nR = .ok (t, r)
      ∧ t.length = 84 ∧ r.length = 84
      ∧ t.map (fun row => (row.state, row.month)) = keys84
      ∧ r.map (fun row => (row.state, row.month)) = keys84 := by
  have hState : (npRepeat states_list 12).length = 84 := by decide
  have hMonth : (npTile months_list 7).length = 84 := by decide
  have hLat : (npRepeat ([19.7, 28.7, 15.3, 11.1, 27.0, 26.8, 22.9] : List ℚ) 12).length
      = 84 := by
    simp [npRepeat, List.length_flatMap]
  have hTemp : (py_temp_col sinL nT).length = 84 := by
    simp [py_temp_col, npTile_length, sin_linspace_col]
  have hRain : (py_rain_col sinL nR).length = 84 := by
    simp [py_rain_col, npTile_length, sin_linspace_col]
  have hc4 : (npRepeat states_list 12).length = (npTile months_list 7).length
      ∧ (npRepeat states_list 12).length = (py_temp_col sinL nT).length
      ∧ (npRepeat states_list 12).length =
          (npRepeat ([19.7, 28.7, 15.3, 11.1, 27.0, 26.8, 22.9] : List ℚ) 12).length := by
    refine ⟨?_, ?_, ?_⟩ <;> omega
  have hc3 : (npRepeat states_list 12).length = (npTile months_list 7).length
      ∧ (npRepeat states_list 12).length = (py_rain_col sinL nR).length := by
    refine ⟨?_, ?_⟩ <;> omega
  have heq : py_sample_tables sinL nT nR =
      .ok ((zip4 (npRepeat states_list 12) (npTile months_list 7) (py_temp_col sinL nT)
              (npRepeat ([19.7, 28.7, 15.3, 11.1, 27.0, 26.8, 22.9] : List ℚ) 12)).map
              (fun p => ({ state := p.1, month := p.2.1, avg_temp := p.2.2.1,
                           lat := some p.2.2.2 } : TempRow)),
           (((npRepeat states_list 12).zip
               ((npTile months_list 7).zip (py_rain_col sinL nR)))).map
              (fun p => ({ state := p.1, month := p.2.1, rainfall := p.2.2 } : RainRow))) := by
    simp only [py_sample_tables, dfOfCols4, dfOfCols3, if_pos hc4, if_pos hc3]
    rfl
  refine ⟨_, _, heq, ?_, ?_, ?_, ?_⟩
  · rw [List.length_map, zip4_length] <;> omega
  · rw [List.length_map, List.length_zip, List.length_zip] ; omega
  · rw [List.map_map]
    exact zip4_map_pair _ (fun a b c d => rfl) _ _ _ _ (by omega) (by omega) (by omega)
  · rw [List.map_map]
    exact zip3_map_pair _ (fun a b c => rfl) _ _ _ (by omega) (by omega)

set_option maxRecDepth 4000 in
/-- Each of the 84 keys occurs exactly once in the generators' layout. -/
theorem keys84_count_one :
    ∀ s ∈ states_list, ∀ m ∈ months_list, keys84.count (s, m) = 1 := by decide

/-- Claim C3: the synthetic generator of `dashboard-with-API.py` raises
`ValueError` (its value columns have length 12 against 84), so it produces
no tables at all; the equivalent synthetic branch of `dashboard.py` does
produce 84-row temperature and rainfall tables in which every
(state, month) pair of the 7 fixed states and 12 months appears exactly
once. -/
theorem c3_sample_pairs (sin7 sinL : Fin 12 → ℚ) (nT nR : ℕ → ℚ) (s m : String)
    (hs : s ∈ states_list) (hm : m ∈ months_list) :
    generate_sample_data sin7 = .error .valueError
    ∧ ∃ t r, py_load_weather_data (.error .fileNotFound) sinL nT nR = .ok (t, r)
        ∧ t.length = 84 ∧ r.length = 84
        ∧ (t.map (fun row => (row.state, row.month))).count (s, m) = 1
        ∧ (r.map (fun row => (row.state, row.month))).count (s, m) = 1 := by
  refine ⟨generate_sample_data_err sin7, ?_⟩
  obtain ⟨t, r, heq, hlt, hlr, hkt, hkr⟩ := py_sample_tables_spec sinL nT nR
  refine ⟨t, r, heq, hlt, hlr, ?_, ?_⟩
  · rw [hkt]; exact keys84_count_one s hs m hm
  · rw [hkr]; exact keys84_count_one s hs m hm

/-- Witness for C3 at a concrete input: all-zero sine tables and noise,
state Maharashtra, month Jan. -/
theorem c3_sample_pairs_witness :
    generate_sample_data (fun _ => 0) = .error .valueError
    ∧ ∃ t r, py_load_weather_data (.error .fileNotFound) (fun _ => 0) (fun _ => 0)
          (fun _ => 0) = .ok (t, r)
        ∧ t.length = 84 ∧ r.length = 84
        ∧ (t.map (fun row => (row.state, row.month))).count ("Maharashtra", "Jan") = 1
        ∧ (r.map (fun row => (row.state, row.month))).count ("Maharashtra", "Jan") = 1 :=
  c3_sample_pairs (fun _ => 0) (fun _ => 0) (fun _ => 0) (fun _ => 0)
    "Maharashtra" "Jan" (by decide) (by decide)

/-! ### The shapefile fallback -/

/-- Claim C7: whatever made the shapefile unreadable, `_load_india_shapefile`
returns the hardcoded fallback table, and that table has exactly one entry
for each of the 7 fixed states, each carrying a point geometry assembled
from its longitude and latitude. -/
theorem c7_fallback_entries (e : ReadError) (s : String) (hs : s ∈ states_list) :
    load_india_shapefile (.error e) = fallback_states
    ∧ (fallback_states.filter (fun g => g.state = s)).length = 1
    ∧ ∀ g ∈ fallback_states, g.geometry = (g.lon, g.lat) := by
  refine ⟨by cases e <;> rfl, ?_, ?_⟩
  · exact (by decide :
      ∀ x ∈ states_list, (fallback_states.filter (fun g => g.state = x)).length = 1) s hs
  · intro g hg
    simp only [fallback_states, List.mem_map] at hg
    obtain ⟨p, _, rfl⟩ := hg
    rfl

/-- Witness for C7: a missing shapefile and the state Maharashtra. -/
theorem c7_fallback_entries_witness :
    load_india_shapefile (.error .fileNotFound) = fallback_states
    ∧ (fallback_states.filter (fun g => g.state = "Maharashtra")).length = 1
    ∧ ∀ g ∈ fallback_states, g.geometry = (g.lon, g.lat) :=
  c7_fallback_entries .fileNotFound "Maharashtra" (by decide)

/-! ### The lexicographic order used by the pivot index -/

/-- `lexLe` is total. -/
theorem lexLe_total : ∀ as bs : List Char, lexLe as bs = true ∨ lexLe bs as = true := by
  intro as
  induction as with
  | nil => intro bs; left; rfl
  | cons a as ih =>
      intro bs
      cases bs with
      | nil => right; rfl
      | cons b bs =>
          by_cases hab : a < b
          · left; simp [lexLe, hab]
          · by_cases hba : b < a
            · right; simp [lexLe, hba]
            · rcases ih bs with h | h
              · left; simp [lexLe, hab, hba, h]
              · right; simp [lexLe, hab, hba, h]

/-- `lexLe` is transitive. -/
theorem lexLe_trans :
    ∀ as bs cs : List Char,
      lexLe as bs = true → lexLe bs cs = true → lexLe as cs = true := by
  intro as
  induction as with
  | nil => intro bs cs _ _; rfl
  | cons a as ih =>
      intro bs cs h1 h2
      cases bs with
      | nil => simp [lexLe] at h1
      | cons b bs =>
          cases cs with
          | nil => simp [lexLe] at h2
          | cons c cs =>
              by_cases hab : a < b
              · by_cases hbc : b < c
                · simp [lexLe, lt_trans hab hbc]
                · by_cases hcb : c < b
                  · simp [lexLe, hbc, hcb] at h2
                  · have hbc2 : b = c := le_antisymm (not_lt.mp hcb) (not_lt.mp hbc)
                    subst hbc2
                    simp [lexLe, hab]
              · by_cases hba : b < a
                · simp [lexLe, hab, hba] at h1
                · have hab2 : a = b := le_antisymm (not_lt.mp hba) (not_lt.mp hab)
                  subst hab2
                  simp only [lexLe, if_neg (lt_irrefl a)] at h1
                  by_cases hac : a < c
                  · simp [lexLe, hac]
                  · by_cases hca : c < a
                    · simp [lexLe, hac, hca] at h2
                    · have hac2 : a = c := le_antisymm (not_lt.mp hca) (not_lt.mp hac)
                      subst hac2
                      simp only [lexLe, if_neg (lt_irrefl a)] at h2 ⊢
                      exact ih bs cs h1 h2

/-- `lexLe` is antisymmetric. -/
theorem lexLe_antisymm :
    ∀ as bs : List Char, lexLe as bs = true → lexLe bs as = true → as = bs := by
  intro as
  induction as with
  | nil =>
      intro bs _ h2
      cases bs with
      | nil => rfl
      | cons b bs => simp [lexLe] at h2
  | cons a as ih =>
      intro bs h1 h2
      cases bs with
      | nil => simp [lexLe] at h1
      | cons b bs =>
          by_cases hab : a < b
          · simp [lexLe, hab, lt_asymm hab] at h2
          · by_cases hba : b < a
            · simp [lexLe, hab, hba] at h1
            · have hab2 : a = b := le_antisymm (not_lt.mp hba) (not_lt.mp hab)
              subst hab2
              simp only [lexLe, if_neg (lt_irrefl a)] at h1 h2
              rw [ih bs h1 h2]

/-- Two strings with the same character data are equal. -/
theorem string_data_inj {s t : String} (h : s.data = t.data) : s = t := by
  cases s
  cases t
  exact congrArg String.mk h

instance : IsTotal String strRle :=
  ⟨fun a b => lexLe_total a.data b.data⟩

instance : IsTrans String strRle :=
  ⟨fun a b c h1 h2 => lexLe_trans a.data b.data c.data h1 h2⟩

instance : IsAntisymm String strRle :=
  ⟨fun a b h1 h2 => string_data_inj (lexLe_antisymm a.data b.data h1 h2)⟩

/-- The sorted unique index is invariant under permutation of the input. -/
theorem uniqueSorted_perm_eq {l1 l2 : List String} (h : l1.Perm l2) :
    uniqueSorted l1 = uniqueSorted l2 := by
  apply List.eq_of_perm_of_sorted (r := strRle)
  · exact (List.perm_insertionSort strRle l1.dedup).trans
      (h.dedup.trans (List.perm_insertionSort strRle l2.dedup).symm)
  · exact List.sorted_insertionSort strRle l1.dedup
  · exact List.sorted_insertionSort strRle l2.dedup

/-! ### Uniqueness of pivot cells -/

/-- A duplicate-free list whose members are all equal has at most one
member. -/
theorem nodup_all_eq_length_le_one {κ : Type _} (l : List κ) (k : κ)
    (hn : l.Nodup) (ha : ∀ x ∈ l, x = k) : l.length ≤ 1 := by
  cases l with
  | nil => simp
  | cons a t =>
      cases t with
      | nil => simp
      | cons b u =>
          exfalso
          have hab : a ≠ b := by
            have := List.nodup_cons.mp hn
            intro hcontra
            exact this.1 (hcontra ▸ List.mem_cons_self b u)
          exact hab ((ha a (by simp)).trans (ha b (by simp)).symm)

/-- `l.any` only depends on the multiset of elements. -/
theorem any_perm_eq {l1 l2 : List α} (h : l1.Perm l2) (p : α → Bool) :
    l1.any p = l2.any p := by
  cases h1 : l1.any p with
  | true =>
      rw [List.any_eq_true] at h1
      obtain ⟨x, hx, hp⟩ := h1
      exact (List.any_eq_true.mpr ⟨x, h.mem_iff.mp hx, hp⟩).symm
  | false =>
      cases h2 : l2.any p with
      | false => rfl
      | true =>
          rw [List.any_eq_true] at h2
          obtain ⟨x, hx, hp⟩ := h2
          have := List.any_eq_true.mpr ⟨x, h.mem_iff.mpr hx, hp⟩
          rw [h1] at this
          exact absurd this (by simp)

/-- On a key-unique rainfall frame, the rows selected by one (state, month)
key form the same (at most singleton) list for any permutation of the
frame. -/
theorem rain_filter_perm_eq {l1 l2 : List RainRow} (h : l1.Perm l2)
    (hnd : (l1.map (fun r => (r.state, r.month))).Nodup) (s m : String) :
    l1.filter (fun r => r.state = s ∧ r.month = m) =
      l2.filter (fun r => r.state = s ∧ r.month = m) := by
  have hperm := h.filter (fun r => decide (r.state = s ∧ r.month = m))
  have hsub : ((l1.filter (fun r => r.state = s ∧ r.month = m)).map
      (fun r => (r.state, r.month))).Sublist (l1.map (fun r => (r.state, r.month))) :=
    (List.filter_sublist l1).map _
  have hnd2 := hnd.sublist hsub
  have hall : ∀ x ∈ (l1.filter (fun r => r.state = s ∧ r.month = m)).map
      (fun r => (r.state, r.month)), x = (s, m) := by
    intro x hx
    rw [List.mem_map] at hx
    obtain ⟨r, hr, rfl⟩ := hx
    rw [List.mem_filter] at hr
    have := of_decide_eq_true hr.2
    rw [this.1, this.2]
  have hlen : (l1.filter (fun r => r.state = s ∧ r.month = m)).length ≤ 1 := by
    have := nodup_all_eq_length_le_one _ _ hnd2 hall
    simpa using this
  cases hf : l1.filter (fun r => r.state = s ∧ r.month = m) with
  | nil =>
      rw [hf] at hperm
      rw [(hperm.symm.eq_nil)]
  | cons a t =>
      cases t with
      | nil =>
          rw [hf] at hperm
          rw [List.perm_singleton.mp hperm.symm]
      | cons b u =>
          rw [hf] at hlen
          simp at hlen

/-- One cell of the rainfall heatmap is permutation-invariant on
key-unique frames. -/
theorem rain_pivot_cell_perm {l1 l2 : List RainRow} (h : l1.Perm l2)
    (hnd : (l1.map (fun r => (r.state, r.month))).Nodup) (s m : String) :
    rain_pivot_cell l1 s m = rain_pivot_cell l2 s m := by
  unfold rain_pivot_cell
  rw [any_perm_eq h, rain_filter_perm_eq h hnd]

/-- Claim C5: the pivoted-and-reindexed rainfall table that the heatmap
renders is the same for any two frames that are permutations of one
another (with the pivot's key-uniqueness precondition): the canonical
Jan..Dec column order and the sorted state index do not depend on the
arrival order of the rows. -/
theorem c5_rain_pivot_perm (l1 l2 : List RainRow) (hperm : l1.Perm l2)
    (hnd : (l1.map (fun r => (r.state, r.month))).Nodup) :
    rain_heatmap_grid l1 = rain_heatmap_grid l2 := by
  unfold rain_heatmap_grid rain_pivot_index
  rw [uniqueSorted_perm_eq (hperm.map (fun r => r.state))]
  apply List.map_congr_left
  intro s _
  have : ∀ m, rain_pivot_cell l1 s m = rain_pivot_cell l2 s m :=
    fun m => rain_pivot_cell_perm hperm hnd s m
  simp [this]

/-- Witness for C5: two orderings of the same two-month frame produce the
same heatmap table. -/
theorem c5_rain_pivot_perm_witness :
    rain_heatmap_grid
        [{ state := "Delhi", month := "Feb", rainfall := 1 },
         { state := "Delhi", month := "Jan", rainfall := 2 }] =
      rain_heatmap_grid
        [{ state := "Delhi", month := "Jan", rainfall := 2 },
         { state := "Delhi", month := "Feb", rainfall := 1 }] :=
  c5_rain_pivot_perm _ _
    (List.Perm.swap ({ state := "Delhi", month := "Jan", rainfall := 2 } : RainRow)
      ({ state := "Delhi", month := "Feb", rainfall := 1 } : RainRow) [])
    (by decide)

/-! ### Determinism of the synthetic seasonal shape -/

/-- Subtracting the left zipped summand recovers the right one. -/
theorem zipWith_add_sub :
    ∀ x y : List ℚ, x.length = y.length →
      List.zipWith (fun a b => a - b) (List.zipWith (· + ·) x y) x = y := by
  intro x
  induction x with
  | nil =>
      intro y h
      cases y with
      | nil => rfl
      | cons b bs => simp at h
  | cons a as ih =>
      intro y h
      cases y with
      | nil => simp at h
      | cons b bs =>
          simp only [List.zipWith, List.length_cons] at *
          rw [ih bs (by omega)]
          congr 1
          ring

/-- Pointwise addition of the same column is injective on the other. -/
theorem zipWith_add_left_inj :
    ∀ x1 x2 y : List ℚ, x1.length = y.length → x2.length = y.length →
      List.zipWith (· + ·) x1 y = List.zipWith (· + ·) x2 y → x1 = x2 := by
  intro x1
  induction x1 with
  | nil =>
      intro x2 y h1 h2 _
      cases y with
      | nil => cases x2 with | nil => rfl | cons c cs => simp at h2
      | cons b bs => simp at h1
  | cons a as ih =>
      intro x2 y h1 h2 heq
      cases y with
      | nil => simp at h1
      | cons b bs =>
          cases x2 with
          | nil => simp at h2
          | cons c cs =>
              simp only [List.zipWith, List.cons.injEq, List.length_cons] at *
              exact ⟨by linarith [heq.1], ih cs bs (by omega) (by omega) heq.2⟩

/-- Constant maps over a nonempty list determine the constant. -/
theorem map_const_inj (l : List ℕ) (c d : ℚ) (hne : l ≠ [])
    (h : l.map (fun _ => c) = l.map (fun _ => d)) : c = d := by
  cases l with
  | nil => exact absurd rfl hne
  | cons a t =>
      simp only [List.map_cons, List.cons.injEq] at h
      exact h.1

/-- Claim C8 (amended): the seasonal modulation in `dashboard.py`'s
synthetic branch is a run-independent function of the hardcoded constants:
the temperature column is always the noise column plus the fixed additive
curve `10 * tile(sin(linspace), 7)`, and the rainfall column is always the
noise column scaled by the fixed factor `1 + 0.5 * tile(sin(linspace), 7)`;
in particular the seasonal residue extracted from any two runs is the same.
(The random noise itself is not seeded, so full outputs differ across runs;
and `dashboard-with-API.py`'s noise-free generator crashes, see C3.) -/
theorem c8_seasonal_amended (sinL : Fin 12 → ℚ) :
    ∃ tSeason rFactor : List ℚ,
      tSeason = (npTile (sin_linspace_col sinL) 7).map (fun x => 10 * x)
      ∧ rFactor = (npTile (sin_linspace_col sinL) 7).map (fun x => 1 + 0.5 * x)
      ∧ (∀ n : ℕ → ℚ, py_temp_col sinL n =
          List.zipWith (· + ·) ((List.range (7 * 12)).map n) tSeason)
      ∧ (∀ n : ℕ → ℚ, py_rain_col sinL n =
          List.zipWith (· * ·) ((List.range (7 * 12)).map n) rFactor)
      ∧ (∀ n1 n2 : ℕ → ℚ,
          List.zipWith (fun a b => a - b) (py_temp_col sinL n1)
              ((List.range (7 * 12)).map n1) =
            List.zipWith (fun a b => a - b) (py_temp_col sinL n2)
              ((List.range (7 * 12)).map n2)) := by
  refine ⟨_, _, rfl, rfl, fun n => rfl, fun n => rfl, ?_⟩
  intro n1 n2
  have hlen : ∀ n : ℕ → ℚ, ((List.range (7 * 12)).map n).length =
      ((npTile (sin_linspace_col sinL) 7).map (fun x => 10 * x)).length := by
    intro n
    simp [npTile_length, sin_linspace_col]
  rw [show py_temp_col sinL n1 =
        List.zipWith (· + ·) ((List.range (7 * 12)).map n1)
          ((npTile (sin_linspace_col sinL) 7).map (fun x => 10 * x)) from rfl,
      show py_temp_col sinL n2 =
        List.zipWith (· + ·) ((List.range (7 * 12)).map n2)
          ((npTile (sin_linspace_col sinL) 7).map (fun x => 10 * x)) from rfl,
      zipWith_add_sub _ _ (hlen n1), zipWith_add_sub _ _ (hlen n2)]

/-- Claim C8, counterexample: the noise is not seeded, so two runs whose
RNG draws differ produce different temperature columns even with identical
sine tables — the generated data is not reproducible across runs. -/
theorem c8_counterexample :
    py_temp_col (fun _ => 0) (fun _ => 0) ≠ py_temp_col (fun _ => 0) (fun _ => 1) := by
  intro h
  unfold py_temp_col at h
  have hlen1 : ((List.range (7 * 12)).map (fun _ => (0 : ℚ))).length =
      ((npTile (sin_linspace_col (fun _ => 0)) 7).map (fun x => 10 * x)).length := by
    simp [npTile_length, sin_linspace_col]
  have hlen2 : ((List.range (7 * 12)).map (fun _ => (1 : ℚ))).length =
      ((npTile (sin_linspace_col (fun _ => 0)) 7).map (fun x => 10 * x)).length := by
    simp [npTile_length, sin_linspace_col]
  have hx := zipWith_add_left_inj _ _ _ hlen1 hlen2 h
  have h01 := map_const_inj (List.range (7 * 12)) 0 1 (by simp) hx
  norm_num at h01

/-! ### The exact-match geographic join -/

/-- Pre-filtering by a predicate implied by the second filter changes
nothing. -/
theorem filter_filter_of_imp {α : Type _} (l : List α) (p q : α → Bool)
    (himp : ∀ x, q x = true → p x = true) :
    (l.filter p).filter q = l.filter q := by
  induction l with
  | nil => rfl
  | cons a t ih =>
      by_cases hp : p a = true
      · by_cases hq : q a = true
        · simp [List.filter, hp, hq, ih]
        · simp [List.filter, hp, hq, ih]
      · have hq : ¬ q a = true := fun hqa => hp (himp a hqa)
        simp [List.filter, hp, hq, ih]

/-- Claim C9: the temperature renderer's join matches aggregated
observations to geometry rows by exact string equality of the state name:
every value attached to a geometry row comes from an aggregate entry whose
key equals that row's state exactly, and aggregate entries whose state
matches no geometry row can be dropped without changing the merged table
(they are silently lost — no fuzzy matching). -/
theorem c9_exact_join (geo : List GeoRow) (temp : List TempRow)
    (agg : List (String × ℚ)) (g : GeoRow) (v : ℚ) (s : String) :
    ((g, some v) ∈ temperature_merged geo temp →
      ∃ p, p ∈ groupby_mean temp ∧ p.1 = g.state ∧ p.2 = v)
    ∧ ((∀ g2 ∈ geo, g2.state ≠ s) →
        merge_left geo (agg.filter (fun p => ¬ p.1 = s)) = merge_left geo agg) := by
  constructor
  · intro hmem
    unfold temperature_merged merge_left at hmem
    rw [List.mem_map] at hmem
    obtain ⟨g0, _, heq⟩ := hmem
    have hg0 : g0 = g := congrArg Prod.fst heq
    subst hg0
    have hv := congrArg Prod.snd heq
    simp only at hv
    cases hf : (groupby_mean temp).filter (fun p => p.1 = g0.state) with
    | nil => rw [hf] at hv; simp at hv
    | cons a t =>
        rw [hf] at hv
        simp only [List.head?, Option.map_some] at hv
        have ha : a ∈ (groupby_mean temp).filter (fun p => p.1 = g0.state) := by
          rw [hf]; exact List.mem_cons_self a t
        rw [List.mem_filter] at ha
        refine ⟨a, ha.1, by simpa using ha.2, ?_⟩
        exact Option.some.inj hv
  · intro hne
    unfold merge_left
    apply List.map_congr_left
    intro g2 hg2
    have hrw : (agg.filter (fun p => ¬ p.1 = s)).filter (fun p => p.1 = g2.state) =
        agg.filter (fun p => p.1 = g2.state) := by
      apply filter_filter_of_imp
      intro x hx
      have hxe : x.1 = g2.state := by simpa using hx
      simp [hxe, hne g2 hg2]
    rw [hrw]

/-- Witness for C9: a single Maharashtra geometry row, one matching
observation, and an aggregate entry keyed "Bombay" that matches no
geometry and is silently dropped. -/
theorem c9_exact_join_witness :
    (∃ p, p ∈ groupby_mean [{ state := "Maharashtra", month := "Jan", avg_temp := 30 }]
        ∧ p.1 = ({ state := "Maharashtra", lat := 1, lon := 2,
                   geometry := (2, 1) } : GeoRow).state
        ∧ p.2 = list_mean [(30 : ℚ)])
    ∧ merge_left [({ state := "Maharashtra", lat := 1, lon := 2,
                     geometry := (2, 1) } : GeoRow)]
          (([("Bombay", (7 : ℚ))]).filter (fun p => ¬ p.1 = "Bombay")) =
        merge_left [({ state := "Maharashtra", lat := 1, lon := 2,
                       geometry := (2, 1) } : GeoRow)] [("Bombay", (7 : ℚ))] := by
  constructor
  · refine (c9_exact_join
      [({ state := "Maharashtra", lat := 1, lon := 2, geometry := (2, 1) } : GeoRow)]
      [{ state := "Maharashtra", month := "Jan", avg_temp := 30 }]
      [("Bombay", (7 : ℚ))]
      ({ state := "Maharashtra", lat := 1, lon := 2, geometry := (2, 1) } : GeoRow)
      (list_mean [(30 : ℚ)]) "Bombay").1 ?_
    show _ ∈ temperature_merged _ _
    rw [show temperature_merged
          [({ state := "Maharashtra", lat := 1, lon := 2, geometry := (2, 1) } : GeoRow)]
          [{ state := "Maharashtra", month := "Jan", avg_temp := 30 }] =
        [(({ state := "Maharashtra", lat := 1, lon := 2, geometry := (2, 1) } : GeoRow),
          some (list_mean [(30 : ℚ)]))] from rfl]
    exact List.mem_singleton.mpr rfl
  · exact (c9_exact_join
      [({ state := "Maharashtra", lat := 1, lon := 2, geometry := (2, 1) } : GeoRow)]
      [{ state := "Maharashtra", month := "Jan", avg_temp := 30 }]
      [("Bombay", (7 : ℚ))]
      ({ state := "Maharashtra", lat := 1, lon := 2, geometry := (2, 1) } : GeoRow)
      (list_mean [(30 : ℚ)]) "Bombay").2 (by decide)
